import Mathlib

/-!
Shallow embedding of `src/core/stage_gate_manager.py` (the Stage-Gate state
machine of the tech-stack audit tool).

Modelling choices, stated once:
* Python `dict`s are association lists that keep insertion order; `dictSet`
  replaces the value of an existing key in place and appends a new key at the
  end, `dictLookup` finds the first (unique) matching key — exactly Python's
  `d[k] = v` / `k in d` / `d.get(k, dflt)` semantics.
* Dynamic Python values that flow through the manager are modelled by the
  fragment the gates actually inspect: integers, strings and booleans
  (`PyVal`).  Python's `x == 0` test is `pyEqZero` (`0 == 0`, `False == 0`).
* Dict keys of the persisted `stage_completion` mapping can be ints or
  strings after a JSON round trip, so they are modelled by `PyKey`.
  `json.dump`/`json.load` turn an int key into its decimal string
  (`jsonKey`); string keys and all values used here survive unchanged.
* `datetime` values are tick counts (`Nat`); `isoformat`/`fromisoformat`
  are exact inverses so the serialized timestamp is modelled by the tick
  value itself.  `datetime.now()` is passed in as an explicit `now` argument.
* File I/O is explicit: `load_or_create_state` takes a `LoadResult` saying
  whether the session file exists and what reading + `json.load` produced;
  an exception raised anywhere inside the `try` block (I/O, JSON parse, or
  `AuditStage(bad_value)` inside `from_dict`) is the `readError` / failed
  `from_dict` case.
-/

/-- Python enum `AuditStage` with ordinals 1–4. -/
inductive AuditStage where
  | DISCOVERY
  | ASSESSMENT
  | OPPORTUNITIES
  | DELIVERY
deriving DecidableEq, Repr

/-- The enum member's `.value`. -/
def AuditStage.value : AuditStage → Int
  | .DISCOVERY => 1
  | .ASSESSMENT => 2
  | .OPPORTUNITIES => 3
  | .DELIVERY => 4

/-- Python `AuditStage(n)`: `some` member with that value, `none` models the
`ValueError` raised on an unknown ordinal. -/
def AuditStage.ofValue? (n : Int) : Option AuditStage :=
  if n = 1 then some .DISCOVERY
  else if n = 2 then some .ASSESSMENT
  else if n = 3 then some .OPPORTUNITIES
  else if n = 4 then some .DELIVERY
  else none

/-- The fragment of Python values the stage-gate code inspects. -/
inductive PyVal where
  | int (n : Int)
  | str (s : String)
  | bool (b : Bool)
deriving DecidableEq, Repr

/-- Python's `str(v)` on that fragment. -/
def PyVal.toStr : PyVal → String
  | .int n => toString n
  | .str s => s
  | .bool b => if b then "True" else "False"

/-- Python's `v == 0` on that fragment (`0 == 0` and `False == 0` are true). -/
def pyEqZero : PyVal → Bool
  | .int n => n == 0
  | .str _ => false
  | .bool b => b == false

/-- Keys of the `stage_completion` dict: ints in a live session, strings after
a JSON round trip (JSON object keys are always strings). -/
inductive PyKey where
  | int (n : Int)
  | str (s : String)
deriving DecidableEq, Repr

/-- Python `f"{k}"` on a dict key. -/
def PyKey.toStr : PyKey → String
  | .int n => toString n
  | .str s => s

/-- Python dict lookup `d[k]` / `d.get(k)` (keys are unique; first match). -/
def dictLookup {α β : Type} [DecidableEq α] : List (α × β) → α → Option β
  | [], _ => none
  | (k, v) :: rest, key => if k = key then some v else dictLookup rest key

/-- Python `k in d`. -/
def dictContains {α β : Type} [DecidableEq α] (d : List (α × β)) (k : α) : Bool :=
  (dictLookup d k).isSome

/-- Python `d.get(k, dflt)`. -/
def dictGet {α β : Type} [DecidableEq α] (d : List (α × β)) (k : α) (dflt : β) : β :=
  (dictLookup d k).getD dflt

/-- Python `d[k] = v`: replace in place when the key exists, append otherwise. -/
def dictSet {α β : Type} [DecidableEq α] : List (α × β) → α → β → List (α × β)
  | [], k, v => [(k, v)]
  | (k', v') :: rest, k, v =>
      if k' = k then (k, v) :: rest else (k', v') :: dictSet rest k v

/-- Python `d.values()` in insertion order. -/
def dictValues {α β : Type} (d : List (α × β)) : List β := d.map Prod.snd

/-- A generic string-keyed Python record (tool data, integration record,
opportunity record, stakeholder contact). -/
def PyDict : Type := List (String × PyVal)

instance : DecidableEq PyDict := by
  unfold PyDict
  infer_instance

/-- Dataclass `AuditState` of `core/stage_gate_manager.py`. -/
structure AuditState where
  client_name : String
  audit_id : String
  current_stage : AuditStage
  stage_completion : List (PyKey × Bool)
  tool_inventory : List (String × PyDict)
  integrations : List PyDict
  automation_opportunities : List PyDict
  client_domain : Option String
  stakeholder_contacts : List PyDict
  created_at : Nat
  updated_at : Nat
deriving DecidableEq

/-- The dict produced by `AuditState.to_dict` as it sits in the session file:
`current_stage` replaced by its ordinal, timestamps by their ISO form
(modelled by the tick value), everything else copied as-is. -/
structure SessionDict where
  client_name : String
  audit_id : String
  current_stage : Int
  stage_completion : List (PyKey × Bool)
  tool_inventory : List (String × PyDict)
  integrations : List PyDict
  automation_opportunities : List PyDict
  client_domain : Option String
  stakeholder_contacts : List PyDict
  created_at : Nat
  updated_at : Nat
deriving DecidableEq

/-- `AuditState.to_dict`: `asdict(self)` with `current_stage` coerced to its
ordinal and the timestamps to ISO strings. -/
def AuditState.to_dict (s : AuditState) : SessionDict :=
  { client_name := s.client_name
    audit_id := s.audit_id
    current_stage := s.current_stage.value
    stage_completion := s.stage_completion
    tool_inventory := s.tool_inventory
    integrations := s.integrations
    automation_opportunities := s.automation_opportunities
    client_domain := s.client_domain
    stakeholder_contacts := s.stakeholder_contacts
    created_at := s.created_at
    updated_at := s.updated_at }

/-- What `json.dump` does to a dict key: an int key becomes its decimal
string, a string key stays itself. -/
def jsonKey : PyKey → PyKey
  | .int n => .str (toString n)
  | .str s => .str s

/-- Effect of `json.dump` followed by `json.load` on the session dict: the
only non-string keys in it are `stage_completion`'s, and they come back as
strings; every value used here is JSON-exact. -/
def jsonRoundTrip (d : SessionDict) : SessionDict :=
  { d with stage_completion := d.stage_completion.map fun kv => (jsonKey kv.1, kv.2) }

/-- `AuditState.from_dict`: converts `current_stage` (raising — `none` — on an
unknown ordinal) and the two timestamps back, and passes every other entry of
the dict through unchanged — in particular `stage_completion` keeps whatever
keys the dict came with. -/
def AuditState.from_dict (d : SessionDict) : Option AuditState :=
  match AuditStage.ofValue? d.current_stage with
  | none => none
  | some st =>
      some
        { client_name := d.client_name
          audit_id := d.audit_id
          current_stage := st
          stage_completion := d.stage_completion
          tool_inventory := d.tool_inventory
          integrations := d.integrations
          automation_opportunities := d.automation_opportunities
          client_domain := d.client_domain
          stakeholder_contacts := d.stakeholder_contacts
          created_at := d.created_at
          updated_at := d.updated_at }

/-- The fresh `AuditState(...)` literal built at the end of
`load_or_create_state`. -/
def newAuditState (client_name audit_id : String) (client_domain : Option String)
    (now : Nat) : AuditState :=
  { client_name := client_name
    audit_id := audit_id
    current_stage := .DISCOVERY
    stage_completion := [(.int 1, false), (.int 2, false), (.int 3, false), (.int 4, false)]
    tool_inventory := []
    integrations := []
    automation_opportunities := []
    client_domain := client_domain
    stakeholder_contacts := []
    created_at := now
    updated_at := now }

/-- What reading the session file produced: no file, an exception while
reading or JSON-parsing it, or a parsed dict. -/
inductive LoadResult where
  | noFile
  | readError (msg : String)
  | parsed (d : SessionDict)

/-- `StageGateManager.load_or_create_state`: returns the deserialized state
when the file exists and every step succeeds; any exception inside the `try`
(I/O, JSON parse, bad field content in `from_dict`) is caught, printed and
replaced by a fresh state, as is the no-file case. -/
def load_or_create_state (r : LoadResult) (client_name audit_id : String)
    (client_domain : Option String) (now : Nat) : AuditState :=
  match r with
  | .parsed d =>
      match AuditState.from_dict d with
      | some s => s
      | none => newAuditState client_name audit_id client_domain now
  | .readError _ => newAuditState client_name audit_id client_domain now
  | .noFile => newAuditState client_name audit_id client_domain now

/-- `StageGateManager.save_state`: refreshes `updated_at` and writes the file
(the write itself is outside the pure state). -/
def save_state (now : Nat) (s : AuditState) : AuditState :=
  { s with updated_at := now }

/-- Required tool metadata of gate 1. -/
def required_fields : List String := ["category", "users", "discovery_method"]

/-- The loop body's `missing_fields` for one tool record. -/
def missingToolFields (tool_data : PyDict) : List String :=
  required_fields.filter fun field => !(dictContains tool_data field)

/-- Python `f"{tool_name} missing: {', '.join(missing_fields)}"`. -/
def toolMissingMsg (tool_name : String) (missing : List String) : String :=
  tool_name ++ " missing: " ++ String.intercalate ", " missing

/-- The `issues` list the gate-1 loop accumulates: one entry per tool with a
non-empty missing-field list, in inventory order. -/
def discoveryIssues (s : AuditState) : List String :=
  s.tool_inventory.filterMap fun td =>
    if (missingToolFields td.2).isEmpty then none
    else some (toolMissingMsg td.1 (missingToolFields td.2))

/-- `StageGateManager.validate_discovery_gate` (gate 1). -/
def validate_discovery_gate (s : AuditState) : Bool × List String :=
  if s.tool_inventory.length = 0 then
    (false, ["No tools discovered"])
  else
    if (discoveryIssues s).isEmpty then (true, ["✅ All tools have required metadata"])
    else (false, discoveryIssues s)

/-- Required integration metadata of gate 2. -/
def required_integration_fields : List String :=
  ["source_tool", "target_tool", "status", "integration_type"]

/-- The loop body's `missing_fields` for one integration record. -/
def missingIntegrationFields (integration : PyDict) : List String :=
  required_integration_fields.filter fun field => !(dictContains integration field)

/-- Python `f"Integration record missing: {', '.join(missing_fields)}"`. -/
def integrationMissingMsg (missing : List String) : String :=
  "Integration record missing: " ++ String.intercalate ", " missing

/-- The `issues` list gate 2 accumulates: the no-integrations complaint first,
then one entry per integration record with a missing field, in list order. -/
def assessmentIssues (s : AuditState) : List String :=
  (if s.integrations.length = 0 then ["No integrations analyzed"] else []) ++
  s.integrations.filterMap fun integration =>
    if (missingIntegrationFields integration).isEmpty then none
    else some (integrationMissingMsg (missingIntegrationFields integration))

/-- `StageGateManager.validate_assessment_gate` (gate 2). -/
def validate_assessment_gate (s : AuditState) : Bool × List String :=
  if s.tool_inventory.length < 2 then
    (false, ["Need at least 2 tools for integration analysis"])
  else
    if (assessmentIssues s).isEmpty then (true, ["✅ Integration analysis complete"])
    else (false, assessmentIssues s)

/-- Required opportunity metadata of gate 3. -/
def required_opp_fields : List String :=
  ["name", "priority_score", "roi_estimate", "n8n_workflow"]

/-- The loop body's `missing_fields` for one opportunity record. -/
def missingOppFields (opp : PyDict) : List String :=
  required_opp_fields.filter fun field => !(dictContains opp field)

/-- Python `opp.get('name', 'Unknown')` rendered by the f-string. -/
def oppDisplayName (opp : PyDict) : String :=
  (dictGet opp "name" (PyVal.str "Unknown")).toStr

/-- Python `f"Opportunity '{name}' missing: {', '.join(missing_fields)}"`. -/
def oppMissingMsg (nm : String) (missing : List String) : String :=
  "Opportunity '" ++ nm ++ "' missing: " ++ String.intercalate ", " missing

/-- Python `f"Opportunity '{name}' not properly scored"`. -/
def oppNotScoredMsg (nm : String) : String :=
  "Opportunity '" ++ nm ++ "' not properly scored"

/-- The two issues the gate-3 loop can append for one opportunity, in loop
order: the missing-fields issue, then the `priority_score == 0` issue. -/
def oppIssues (opp : PyDict) : List String :=
  (let missing := missingOppFields opp
   if missing.isEmpty then [] else [oppMissingMsg (oppDisplayName opp) missing]) ++
  (if pyEqZero (dictGet opp "priority_score" (PyVal.int 0)) then
    [oppNotScoredMsg (oppDisplayName opp)]
   else [])

/-- The `issues` list gate 3 accumulates: the too-few complaint first, then
the per-opportunity issues in loop order. -/
def opportunitiesIssues (s : AuditState) : List String :=
  (if s.automation_opportunities.length < 3 then
    ["Need at least 3 automation opportunities identified"]
   else []) ++
  s.automation_opportunities.flatMap oppIssues

/-- `StageGateManager.validate_opportunities_gate` (gate 3). -/
def validate_opportunities_gate (s : AuditState) : Bool × List String :=
  if (opportunitiesIssues s).isEmpty then (true, ["✅ Automation roadmap complete"])
  else (false, opportunitiesIssues s)

/-- Python `f"Incomplete stages: {', '.join(incomplete_stages)}"` over the
keys whose completion flag is false. -/
def incompleteStagesMsg (stage_completion : List (PyKey × Bool)) : String :=
  "Incomplete stages: " ++ String.intercalate ", "
    ((stage_completion.filter fun kv => !kv.2).map fun kv => "Stage " ++ kv.1.toStr)

/-- The `issues` list gate 4 accumulates, in source order. -/
def deliveryIssues (s : AuditState) : List String :=
  (if !((dictValues s.stage_completion).all id) then
    [incompleteStagesMsg s.stage_completion]
   else []) ++
  (if s.tool_inventory.isEmpty then ["No tool inventory for report"] else []) ++
  (if s.automation_opportunities.isEmpty then
    ["No automation opportunities for presentation"]
   else [])

/-- `StageGateManager.validate_delivery_gate` (gate 4) — defined in the source
but, as `check_stage_gate` shows, never consulted by any advance path. -/
def validate_delivery_gate (s : AuditState) : Bool × List String :=
  if (deliveryIssues s).isEmpty then (true, ["✅ Ready for client delivery"])
  else (false, deliveryIssues s)

/-- `StageGateManager.check_stage_gate`: dispatch on the target stage.  The
Python `else: return False, ["Unknown stage"]` branch is unreachable for the
four-member enum and has no counterpart here. -/
def check_stage_gate (s : AuditState) : AuditStage → Bool × List String
  | .DISCOVERY => (true, ["✅ Starting discovery"])
  | .ASSESSMENT => validate_discovery_gate s
  | .OPPORTUNITIES => validate_assessment_gate s
  | .DELIVERY => validate_opportunities_gate s

/-- `StageGateManager.advance_stage`: returns the success flag and the state
after the call (the Python method mutates `self.state` in place). -/
def advance_stage (now : Nat) (s : AuditState) (target_stage : AuditStage)
    (force : Bool) : Bool × AuditState :=
  let can_advance := (check_stage_gate s target_stage).1
  if can_advance || force then
    let s₁ := { s with current_stage := target_stage }
    let s₂ :=
      if target_stage.value > 1 then
        { s₁ with stage_completion :=
            dictSet s₁.stage_completion (.int (target_stage.value - 1)) true }
      else s₁
    (true, save_state now s₂)
  else
    (false, s)

/-- `StageGateManager.add_tool`. -/
def add_tool (now : Nat) (s : AuditState) (tool_name : String) (tool_data : PyDict) :
    AuditState :=
  save_state now { s with tool_inventory := dictSet s.tool_inventory tool_name tool_data }

/-- `StageGateManager.add_integration`. -/
def add_integration (now : Nat) (s : AuditState) (integration_data : PyDict) : AuditState :=
  save_state now { s with integrations := s.integrations ++ [integration_data] }

/-- `StageGateManager.add_automation_opportunity`. -/
def add_automation_opportunity (now : Nat) (s : AuditState) (opportunity_data : PyDict) :
    AuditState :=
  save_state now
    { s with automation_opportunities := s.automation_opportunities ++ [opportunity_data] }

/-! ### Helper lemmas about the gate result shape and the dict operations -/

/-- The final `if not issues ... return True ... return False, issues` of every
gate, as a success criterion: the gate passes exactly when the issue list is
empty. -/
theorem gateIf_fst_iff (issues : List String) (ok : String) :
    (if issues.isEmpty then ((true, [ok]) : Bool × List String) else (false, issues)).1 = true
      ↔ issues = [] := by
  rcases issues with _ | ⟨a, l⟩ <;> simp

/-- Both branches of a gate's final `if` carry at least one message. -/
theorem gateIf_snd_ne (issues : List String) (ok : String) :
    (if issues.isEmpty then ((true, [ok]) : Bool × List String) else (false, issues)).2 ≠ [] := by
  rcases issues with _ | ⟨a, l⟩ <;> simp

/-- When the issue list is non-empty the gate returns it verbatim. -/
theorem gateIf_snd_of_fail (issues : List String) (ok : String) (h : issues ≠ []) :
    (if issues.isEmpty then ((true, [ok]) : Bool × List String) else (false, issues)).2 = issues := by
  rcases issues with _ | ⟨a, l⟩
  · exact absurd rfl h
  · simp

/-- A conditional singleton issue contributes nothing iff its condition fails. -/
theorem if_singleton_nil_iff (c : Prop) [Decidable c] (msg : String) :
    ((if c then [msg] else []) : List String) = [] ↔ ¬ c := by
  by_cases h : c <;> simp [h]

/-- A conditionally produced issue (as `filterMap` body) is skipped iff the
missing-field list is empty. -/
theorem if_isEmpty_none_iff {α : Type} (m : List String) (x : α) :
    ((if m.isEmpty then none else some x) : Option α) = none ↔ m = [] := by
  rcases m with _ | ⟨a, l⟩ <;> simp

/-- A per-record issue list of the shape `if m.isEmpty then [] else [msg]`
vanishes iff the record is missing nothing. -/
theorem if_isEmpty_nil_iff (m : List String) (msg : String) :
    ((if m.isEmpty then [] else [msg]) : List String) = [] ↔ m = [] := by
  rcases m with _ | ⟨a, l⟩ <;> simp

/-- A `for`-loop that appends `g a` for every `a` failing the filter `p` builds
exactly the mapped filtered list. -/
theorem filterMap_if_eq_map_filter {α β : Type} (l : List α) (p : α → Bool) (g : α → β) :
    (l.filterMap fun a => if p a then none else some (g a))
      = (l.filter fun a => !p a).map g := by
  induction l with
  | nil => simp
  | cons a t ih => by_cases h : p a <;> simp [h, ih]

/-- A required-fields filter is empty iff the record carries every field. -/
theorem requiredFilter_eq_nil (fields : List String) (d : PyDict) :
    (fields.filter fun f => !(dictContains d f)) = [] ↔
      ∀ f ∈ fields, dictContains d f = true := by
  rw [List.filter_eq_nil_iff]
  simp

/-- `missingToolFields` is empty iff the tool record carries every required
field. -/
theorem missingToolFields_eq_nil (d : PyDict) :
    missingToolFields d = [] ↔ ∀ f ∈ required_fields, dictContains d f = true :=
  requiredFilter_eq_nil required_fields d

/-- `missingIntegrationFields` is empty iff the integration record carries
every required field. -/
theorem missingIntegrationFields_eq_nil (d : PyDict) :
    missingIntegrationFields d = [] ↔
      ∀ f ∈ required_integration_fields, dictContains d f = true :=
  requiredFilter_eq_nil required_integration_fields d

/-- `missingOppFields` is empty iff the opportunity record carries every
required field. -/
theorem missingOppFields_eq_nil (d : PyDict) :
    missingOppFields d = [] ↔ ∀ f ∈ required_opp_fields, dictContains d f = true :=
  requiredFilter_eq_nil required_opp_fields d

/-- The gate-3 loop raises no issue for an opportunity iff the record has every
required field and its priority score does not compare equal to `0`. -/
theorem oppIssues_eq_nil (opp : PyDict) :
    oppIssues opp = [] ↔
      (missingOppFields opp = [] ∧
        pyEqZero (dictGet opp "priority_score" (PyVal.int 0)) = false) := by
  unfold oppIssues
  rw [List.append_eq_nil, if_isEmpty_nil_iff]
  constructor
  · rintro ⟨h1, h2⟩
    refine ⟨h1, ?_⟩
    by_cases h : pyEqZero (dictGet opp "priority_score" (PyVal.int 0))
    · simp [h] at h2
    · simpa using h
  · rintro ⟨h1, h2⟩
    exact ⟨h1, by simp [h2]⟩

/-- Setting a key makes it present with the written value (Python
`d[k] = v; d[k] == v`). -/
theorem dictLookup_dictSet_self {α β : Type} [DecidableEq α]
    (d : List (α × β)) (k : α) (v : β) :
    dictLookup (dictSet d k v) k = some v := by
  induction d with
  | nil => simp [dictSet, dictLookup]
  | cons kv rest ih =>
    rcases kv with ⟨k', v'⟩
    by_cases h : k' = k
    · simp [dictSet, h, dictLookup]
    · simp [dictSet, h, dictLookup, ih]

/-! ### Concrete sessions used by the scenario conjuncts, counterexamples and
witnesses -/

/-- Tool record of the spec's scenario: Zoom with every required field. -/
def zoomData : PyDict :=
  [("category", PyVal.str "Communication"), ("users", PyVal.str "All"),
   ("discovery_method", PyVal.str "manual")]

/-- A fresh session, then `add_tool("Zoom", ...)`, then a successful
`advance_stage(ASSESSMENT)` — the session of the spec's happy-path scenario. -/
def c1state : AuditState :=
  (advance_stage 2 (add_tool 1 (newAuditState "Acme Wealth" "audit_c1" none 0) "Zoom" zoomData)
    AuditStage.ASSESSMENT false).2

/-- Opportunity record with a non-zero score. -/
def oppEmailTriage : PyDict :=
  [("name", PyVal.str "Email Triage"), ("priority_score", PyVal.int 8),
   ("roi_estimate", PyVal.int 12000), ("n8n_workflow", PyVal.str "email_triage.json")]

/-- Opportunity record whose `priority_score` is `0`. -/
def oppCrmSync : PyDict :=
  [("name", PyVal.str "CRM Sync"), ("priority_score", PyVal.int 0),
   ("roi_estimate", PyVal.int 8000), ("n8n_workflow", PyVal.str "crm_sync.json")]

/-- Opportunity record with a non-zero score. -/
def oppReportGen : PyDict :=
  [("name", PyVal.str "Report Gen"), ("priority_score", PyVal.int 14),
   ("roi_estimate", PyVal.int 20000), ("n8n_workflow", PyVal.str "report_gen.json")]

/-- Session with three opportunity records of which exactly one (`CRM Sync`)
has `priority_score == 0`. -/
def c4state : AuditState :=
  add_automation_opportunity 3
    (add_automation_opportunity 2
      (add_automation_opportunity 1 (newAuditState "Acme Wealth" "audit_c4" none 0)
        oppEmailTriage)
      oppCrmSync)
    oppReportGen

/-- Session with three fully scored opportunity records and all four
`stage_completion` flags still false. -/
def c10state : AuditState :=
  add_automation_opportunity 3
    (add_automation_opportunity 2
      (add_automation_opportunity 1 (newAuditState "Acme Wealth" "audit_c10" none 0)
        oppEmailTriage)
      oppReportGen)
    [("name", PyVal.str "Fee Billing"), ("priority_score", PyVal.int 11),
     ("roi_estimate", PyVal.int 9000), ("n8n_workflow", PyVal.str "fee_billing.json")]

/-- A fresh session as `load_or_create_state` builds one. -/
def c7state : AuditState := newAuditState "Acme Wealth" "audit_c7" none 0

/-! ### The claims -/

/-- C9: for every state and every member of the four-member stage enumeration,
`check_stage_gate` is a total pure function of the state (it is a Lean
function, so totality and leaving the state unmodified hold by construction)
and the message list it returns alongside the boolean is never empty. -/
theorem check_stage_gate_messages_nonempty :
    ∀ (s : AuditState) (t : AuditStage), (check_stage_gate s t).2 ≠ [] := by
  intro s t
  cases t
  · simp [check_stage_gate]
  · unfold check_stage_gate validate_discovery_gate
    by_cases h : s.tool_inventory.length = 0
    · simp [h]
    · simp only [h, if_false]
      exact gateIf_snd_ne _ _
  · unfold check_stage_gate validate_assessment_gate
    by_cases h : s.tool_inventory.length < 2
    · simp [h]
    · simp only [h, if_false]
      exact gateIf_snd_ne _ _
  · unfold check_stage_gate validate_opportunities_gate
    exact gateIf_snd_ne _ _

/-- C2: whenever the gate check for the target fails and `force` is false,
`advance_stage` returns failure and the state after the call is the state
before it, field for field — so re-serializing it (`to_dict`) gives back the
identical session dict. -/
theorem advance_failed_gate_frame (now : Nat) (s : AuditState) (t : AuditStage)
    (h : (check_stage_gate s t).1 = false) :
    advance_stage now s t false = (false, s) ∧
      (advance_stage now s t false).2.to_dict = s.to_dict := by
  have hadv : advance_stage now s t false = (false, s) := by
    unfold advance_stage
    simp [h]
  exact ⟨hadv, by rw [hadv]⟩

/-- C2 witness: a fresh session has no tools, so the ASSESSMENT gate fails and
`advance_stage(ASSESSMENT)` leaves the state untouched. -/
theorem advance_failed_gate_frame_witness :
    advance_stage 1 (newAuditState "Acme Wealth" "audit_c2" none 0) AuditStage.ASSESSMENT false
        = (false, newAuditState "Acme Wealth" "audit_c2" none 0) ∧
      (advance_stage 1 (newAuditState "Acme Wealth" "audit_c2" none 0)
          AuditStage.ASSESSMENT false).2.to_dict
        = (newAuditState "Acme Wealth" "audit_c2" none 0).to_dict :=
  advance_failed_gate_frame 1 (newAuditState "Acme Wealth" "audit_c2" none 0)
    AuditStage.ASSESSMENT (by decide)

/-- C8: a load attempt whose read or parse raises (`readError`), or whose file
content fails to deserialize (`from_dict` returns nothing), does not propagate
the error: `load_or_create_state` returns the freshly created state, whose
`current_stage` is DISCOVERY, whose four `stage_completion` entries are all
false, and whose tool, integration and opportunity collections are empty. -/
theorem load_error_falls_back_to_fresh_state :
    ∀ (client audit_name : String) (dom : Option String) (now : Nat) (msg : String)
      (d : SessionDict),
      load_or_create_state (.readError msg) client audit_name dom now
          = newAuditState client audit_name dom now ∧
      (AuditState.from_dict d = none →
        load_or_create_state (.parsed d) client audit_name dom now
          = newAuditState client audit_name dom now) ∧
      (newAuditState client audit_name dom now).current_stage = AuditStage.DISCOVERY ∧
      (newAuditState client audit_name dom now).stage_completion
          = [(.int 1, false), (.int 2, false), (.int 3, false), (.int 4, false)] ∧
      (newAuditState client audit_name dom now).tool_inventory = [] ∧
      (newAuditState client audit_name dom now).integrations = [] ∧
      (newAuditState client audit_name dom now).automation_opportunities = [] := by
  intro client audit_name dom now msg d
  refine ⟨rfl, ?_, rfl, rfl, rfl, rfl, rfl⟩
  intro h
  simp [load_or_create_state, h]

/-- C1 counterexample: a real session trace — fresh session, one complete tool,
successful `advance_stage(ASSESSMENT)` — on which `advance_stage(DISCOVERY)`
(no force) also returns success and moves `current_stage` from ordinal 2 back
to ordinal 1, refuting monotonicity of successful advances. -/
theorem advance_backward_to_discovery_cex :
    (advance_stage 2 (add_tool 1 (newAuditState "Acme Wealth" "audit_c1" none 0) "Zoom" zoomData)
        AuditStage.ASSESSMENT false).1 = true ∧
    c1state.current_stage = AuditStage.ASSESSMENT ∧
    (advance_stage 3 c1state AuditStage.DISCOVERY false).1 = true ∧
    (advance_stage 3 c1state AuditStage.DISCOVERY false).2.current_stage
        = AuditStage.DISCOVERY ∧
    (advance_stage 3 c1state AuditStage.DISCOVERY false).2.current_stage.value
        < c1state.current_stage.value := by
  decide

/-- C1 (amended): a successful `advance_stage(target)` always sets
`current_stage` to the target, whatever its ordinal; since the DISCOVERY gate
always passes, a successful call can move the stage backward, and
`current_stage` is non-decreasing precisely across those successful calls whose
target ordinal is at least the pre-call stage's ordinal (a failed call leaves
the state unchanged). -/
theorem advance_monotone_only_forward_amended :
    ∀ (now : Nat) (s : AuditState) (t : AuditStage) (force : Bool),
      ((advance_stage now s t force).1 = true →
        (advance_stage now s t force).2.current_stage = t) ∧
      ((advance_stage now s t force).1 = false →
        (advance_stage now s t force).2 = s) ∧
      (s.current_stage.value ≤ t.value →
        s.current_stage.value ≤ (advance_stage now s t force).2.current_stage.value) := by
  intro now s t force
  unfold advance_stage
  by_cases h : ((check_stage_gate s t).1 || force) = true
  · by_cases h1 : t.value > 1 <;>
      simp [h, h1, save_state]
  · by_cases h1 : t.value > 1 <;>
      simp [h, h1, save_state]

/-- C3 counterexample: advancing a fresh session to DISCOVERY succeeds (its
gate always passes) but sets no completion flag at all: key `0` — the claim's
`target.ordinal - 1` — is absent from `stage_completion`, and the mapping is
unchanged, refuting the claim's universal `stage_completion[target.ordinal - 1]
= true` at target DISCOVERY. -/
theorem advance_discovery_no_completion_cex :
    (advance_stage 1 c7state AuditStage.DISCOVERY false).1 = true ∧
    dictLookup (advance_stage 1 c7state AuditStage.DISCOVERY false).2.stage_completion
        (PyKey.int 0) = none ∧
    (advance_stage 1 c7state AuditStage.DISCOVERY false).2.stage_completion
        = c7state.stage_completion := by
  decide

/-- C3 (amended): a successful `advance_stage(target, force)` sets
`current_stage = target`, and for every target other than DISCOVERY (ordinal
greater than 1) it marks `stage_completion[target.ordinal - 1] = true`; a
successful advance to DISCOVERY leaves `stage_completion` unchanged.  In
particular, the spec's scenario session (fresh, Zoom added, successful
`advance_stage(ASSESSMENT)`) has `stage_completion[1] = true` and stands at
ASSESSMENT. -/
theorem advance_marks_previous_stage_amended :
    ∀ (now : Nat) (s : AuditState) (t : AuditStage) (force : Bool),
      ((advance_stage now s t force).1 = true →
        (advance_stage now s t force).2.current_stage = t) ∧
      ((advance_stage now s t force).1 = true → 1 < t.value →
        dictLookup (advance_stage now s t force).2.stage_completion
          (PyKey.int (t.value - 1)) = some true) ∧
      ((advance_stage now s t force).1 = true → t = AuditStage.DISCOVERY →
        (advance_stage now s t force).2.stage_completion = s.stage_completion) ∧
      (dictLookup c1state.stage_completion (PyKey.int 1) = some true ∧
        c1state.current_stage = AuditStage.ASSESSMENT) := by
  intro now s t force
  refine ⟨?_, ?_, ?_, by decide⟩
  · intro h
    unfold advance_stage at h ⊢
    by_cases hc : ((check_stage_gate s t).1 || force) = true
    · by_cases h1 : t.value > 1 <;> simp [hc, h1, save_state]
    · simp [hc] at h
  · intro h h1
    unfold advance_stage at h ⊢
    by_cases hc : ((check_stage_gate s t).1 || force) = true
    · simp [hc, h1, save_state]
      exact dictLookup_dictSet_self _ _ _
    · simp [hc] at h
  · intro h ht
    subst ht
    unfold advance_stage at h ⊢
    by_cases hc : ((check_stage_gate s AuditStage.DISCOVERY).1 || force) = true
    · simp [hc, AuditStage.value, save_state]
    · simp [hc] at h

/-- C5: the gate consulted for target ASSESSMENT passes exactly when the tool
inventory is non-empty and every tool record carries the required fields
{category, users, discovery_method}; on an empty inventory it returns exactly
the "No tools discovered" message; on a non-empty inventory it fails with one
issue per tool that has missing fields, listing that tool's missing fields;
and in the spec's fresh-session scenario `advance_stage(ASSESSMENT)` fails
with that message and changes nothing. -/
theorem assessment_gate_iff_complete_inventory :
    ∀ s : AuditState,
      ((check_stage_gate s AuditStage.ASSESSMENT).1 = true ↔
        (s.tool_inventory ≠ [] ∧
          ∀ td ∈ s.tool_inventory, ∀ f ∈ required_fields, dictContains td.2 f = true)) ∧
      (s.tool_inventory = [] →
        check_stage_gate s AuditStage.ASSESSMENT = (false, ["No tools discovered"])) ∧
      (s.tool_inventory ≠ [] → (check_stage_gate s AuditStage.ASSESSMENT).1 = false →
        (check_stage_gate s AuditStage.ASSESSMENT).2 =
          (s.tool_inventory.filter fun td => !(missingToolFields td.2).isEmpty).map
            fun td => toolMissingMsg td.1 (missingToolFields td.2)) ∧
      (check_stage_gate (newAuditState "Acme Wealth" "audit_c5" none 0) AuditStage.ASSESSMENT
          = (false, ["No tools discovered"]) ∧
        advance_stage 1 (newAuditState "Acme Wealth" "audit_c5" none 0)
            AuditStage.ASSESSMENT false
          = (false, newAuditState "Acme Wealth" "audit_c5" none 0)) := by
  intro s
  refine ⟨?_, ?_, ?_, by decide⟩
  · by_cases h0 : s.tool_inventory = []
    · simp [check_stage_gate, validate_discovery_gate, h0]
    · have hlen : ¬ s.tool_inventory.length = 0 := by
        simpa [List.length_eq_zero] using h0
      show (validate_discovery_gate s).1 = true ↔ _
      unfold validate_discovery_gate
      rw [if_neg hlen, gateIf_fst_iff]
      unfold discoveryIssues
      rw [List.filterMap_eq_nil_iff]
      constructor
      · intro h
        refine ⟨h0, fun td htd f hf => ?_⟩
        have h2 := h td htd
        rw [if_isEmpty_none_iff] at h2
        exact (missingToolFields_eq_nil td.2).mp h2 f hf
      · rintro ⟨-, h⟩ td htd
        rw [if_isEmpty_none_iff]
        exact (missingToolFields_eq_nil td.2).mpr (h td htd)
  · intro h0
    simp [check_stage_gate, validate_discovery_gate, h0]
  · intro h0 hfail
    have hlen : ¬ s.tool_inventory.length = 0 := by
      simpa [List.length_eq_zero] using h0
    have hfail' : (validate_discovery_gate s).1 = false := hfail
    unfold validate_discovery_gate at hfail'
    rw [if_neg hlen] at hfail'
    have hiss : ¬ ((discoveryIssues s).isEmpty = true) := by
      intro hnil
      rw [if_pos hnil] at hfail'
      simp at hfail'
    show (validate_discovery_gate s).2 = _
    unfold validate_discovery_gate
    rw [if_neg hlen, if_neg hiss]
    show discoveryIssues s = _
    unfold discoveryIssues
    exact filterMap_if_eq_map_filter _ _ _

/-- C6: the gate consulted for target OPPORTUNITIES passes exactly when the
tool inventory holds at least 2 tools, at least one integration record is
present, and every integration record carries the required fields
{source_tool, target_tool, status, integration_type}. -/
theorem opportunities_gate_iff_assessed_integrations :
    ∀ s : AuditState,
      (check_stage_gate s AuditStage.OPPORTUNITIES).1 = true ↔
        (2 ≤ s.tool_inventory.length ∧ s.integrations ≠ [] ∧
          ∀ integ ∈ s.integrations,
            ∀ f ∈ required_integration_fields, dictContains integ f = true) := by
  intro s
  by_cases h2 : s.tool_inventory.length < 2
  · show (validate_assessment_gate s).1 = true ↔ _
    unfold validate_assessment_gate
    rw [if_pos h2]
    constructor
    · intro h; exact absurd h (by simp)
    · rintro ⟨hle, -, -⟩; exact absurd hle (by omega)
  · show (validate_assessment_gate s).1 = true ↔ _
    unfold validate_assessment_gate
    rw [if_neg h2, gateIf_fst_iff]
    unfold assessmentIssues
    rw [List.append_eq_nil, if_singleton_nil_iff, List.filterMap_eq_nil_iff]
    constructor
    · rintro ⟨hni, hall⟩
      refine ⟨by omega, ?_, fun integ hi f hf => ?_⟩
      · intro hnil; exact hni (by simp [hnil])
      · have h3 := hall integ hi
        rw [if_isEmpty_none_iff] at h3
        exact (missingIntegrationFields_eq_nil integ).mp h3 f hf
    · rintro ⟨-, hne, hall⟩
      refine ⟨?_, fun integ hi => ?_⟩
      · intro hlen0; exact hne (List.length_eq_zero.mp hlen0)
      · rw [if_isEmpty_none_iff]
        exact (missingIntegrationFields_eq_nil integ).mpr (hall integ hi)

/-- C4: the gate consulted for target DELIVERY passes exactly when there are
at least 3 automation-opportunity records, every record carries the required
fields {name, priority_score, roi_estimate, n8n_workflow}, and no record's
priority score compares equal to 0 (a missing score defaults to 0); and in the
spec's scenario — three opportunities of which exactly one, `CRM Sync`, has
`priority_score == 0` — the gate fails citing precisely that opportunity as
not properly scored, and `advance_stage(DELIVERY)` fails without touching the
state. -/
theorem delivery_gate_iff_scored_opportunities :
    (∀ s : AuditState,
      (check_stage_gate s AuditStage.DELIVERY).1 = true ↔
        (3 ≤ s.automation_opportunities.length ∧
          ∀ opp ∈ s.automation_opportunities,
            (∀ f ∈ required_opp_fields, dictContains opp f = true) ∧
            pyEqZero (dictGet opp "priority_score" (PyVal.int 0)) = false)) ∧
    ((check_stage_gate c4state AuditStage.DELIVERY).1 = false ∧
      (check_stage_gate c4state AuditStage.DELIVERY).2
        = ["Opportunity 'CRM Sync' not properly scored"] ∧
      advance_stage 4 c4state AuditStage.DELIVERY false = (false, c4state)) := by
  constructor
  · intro s
    show (validate_opportunities_gate s).1 = true ↔ _
    unfold validate_opportunities_gate
    rw [gateIf_fst_iff]
    unfold opportunitiesIssues
    rw [List.append_eq_nil, if_singleton_nil_iff, List.flatMap_eq_nil_iff]
    constructor
    · rintro ⟨h3, hall⟩
      refine ⟨by omega, fun opp ho => ?_⟩
      have h4 := (oppIssues_eq_nil opp).mp (hall opp ho)
      exact ⟨(missingOppFields_eq_nil opp).mp h4.1, h4.2⟩
    · rintro ⟨h3, hall⟩
      refine ⟨by omega, fun opp ho => ?_⟩
      exact (oppIssues_eq_nil opp).mpr
        ⟨(missingOppFields_eq_nil opp).mpr (hall opp ho).1, (hall opp ho).2⟩
  · decide

/-- C7: evaluation of the claimed round trip at a fresh session state, showing
the bug — `to_dict` + JSON encoding serializes `stage_completion` with
stage-number-as-string keys, and `from_dict` (which converts `current_stage`
and both timestamps back) passes `stage_completion` through unconverted, so
the deserialized state holds string keys `"1"`–`"4"` where the original held
int keys `1`–`4` and is not equal to the original. -/
theorem roundtrip_stringifies_completion_keys :
    AuditState.from_dict (jsonRoundTrip c7state.to_dict)
        = some { c7state with stage_completion :=
            [(.str "1", false), (.str "2", false), (.str "3", false), (.str "4", false)] } ∧
    AuditState.from_dict (jsonRoundTrip c7state.to_dict) ≠ some c7state := by
  decide

/-- C10: `check_stage_gate` consults, per target, exactly the constant-pass
DISCOVERY answer, `validate_discovery_gate`, `validate_assessment_gate` and —
for DELIVERY — `validate_opportunities_gate`; `validate_delivery_gate` is on
no advance path.  Hence the concrete session `c10state`, whose four
`stage_completion` flags are all false (so `validate_delivery_gate` rejects
it), still advances successfully to DELIVERY. -/
theorem delivery_advance_ignores_delivery_gate :
    (∀ s : AuditState,
      check_stage_gate s AuditStage.DISCOVERY = (true, ["✅ Starting discovery"]) ∧
      check_stage_gate s AuditStage.ASSESSMENT = validate_discovery_gate s ∧
      check_stage_gate s AuditStage.OPPORTUNITIES = validate_assessment_gate s ∧
      check_stage_gate s AuditStage.DELIVERY = validate_opportunities_gate s) ∧
    (dictValues c10state.stage_completion = [false, false, false, false] ∧
      (validate_delivery_gate c10state).1 = false ∧
      (advance_stage 9 c10state AuditStage.DELIVERY false).1 = true ∧
      (advance_stage 9 c10state AuditStage.DELIVERY false).2.current_stage
        = AuditStage.DELIVERY) := by
  exact ⟨fun s => ⟨rfl, rfl, rfl, rfl⟩, by decide⟩
